import Mathlib

/-!
Verification of the appointment slot-availability and booking logic of the
care-connect-pro clinic application.

The embedding follows the source:
  * the `appointments` / `doctor_sessions` schema of the migration
    `20260109073538_ce3b841c-e158-4a51-8836-bd186762dc4d.sql`;
  * `generateTimeSlots` / `handleBook` of the patient booking screen
    (slot grid generation, per-slot occupancy, max-patients gate, insert);
  * `handleUpdateStatus` of the doctor appointments screen.

Machine numbers are modelled as `Nat`. Database `TIME` values are carried
both in parsed form (hour/minute, the result of the source's
`start_time.split(":").map(Number)`) and as the `"HH:MM"` strings the UI
builds with `padStart(2, "0")`; stored appointment times are `"HH:MM:SS"`
strings, truncated with `slice(0, 5)` exactly as the source does.
-/

namespace CareConnect

/-- Appointment status, from the migration enum
`appointment_status AS ENUM ('pending', 'confirmed', 'cancelled', 'completed')`. -/
inductive AppointmentStatus where
  | pending
  | confirmed
  | cancelled
  | completed
deriving DecidableEq, Repr

/-- A row of `doctor_sessions`. `start_time`/`end_time` are kept in the parsed
form the booking screen computes with `session.start_time.split(":").map(Number)`:
`startHour`/`startMin` and `endHour`/`endMin`. `max_patients` is a nullable
integer column (`none` models SQL `NULL`). -/
structure DoctorSession where
  id : Nat
  doctor_id : Nat
  day_of_week : Nat
  startHour : Nat
  startMin : Nat
  endHour : Nat
  endMin : Nat
  max_patients : Option Nat
deriving DecidableEq, Repr

/-- A row of `appointments`. `appointment_time` is the stored `TIME` rendered
as an `"HH:MM:SS"` string, as the client receives it. -/
structure Appointment where
  id : Nat
  patient_id : Nat
  doctor_id : Nat
  session_id : Option Nat
  appointment_date : String
  appointment_time : String
  status : AppointmentStatus
  reason : Option String
deriving DecidableEq, Repr

/-- The `TimeSlot` interface of the booking screen. -/
structure TimeSlot where
  time : String
  available : Bool
deriving DecidableEq, Repr

/-- JavaScript `n.toString().padStart(2, "0")` for a natural number. -/
def pad2 (n : Nat) : String :=
  if n < 10 then "0" ++ Nat.repr n else Nat.repr n

/-- The slot label built in the loop body:
`currentHour.toString().padStart(2, "0") + ":" + currentMin.toString().padStart(2, "0")`. -/
def timeStr (h m : Nat) : String := pad2 h ++ ":" ++ pad2 m

/-- The slot-generation loop of `generateTimeSlots`:

`while (currentHour < endHour || (currentHour === endHour && currentMin < endMin))`
emit the current label, then `currentMin += 30; if (currentMin >= 60) { currentHour += 1; currentMin = 0; }`. -/
def slotTimesFrom (endHour endMin h m : Nat) : List String :=
  if hlt : h < endHour ∨ (h = endHour ∧ m < endMin) then
    timeStr h m ::
      (if m + 30 ≥ 60 then slotTimesFrom endHour endMin (h + 1) 0
       else slotTimesFrom endHour endMin h (m + 30))
  else []
termination_by (endHour + 1 - h) * 2 + (1 - m / 30)
decreasing_by
  · omega
  · omega

/-- The initial slot list of `generateTimeSlots`: every generated time, marked
`available: true`. -/
def sessionSlots (s : DoctorSession) : List TimeSlot :=
  (slotTimesFrom s.endHour s.endMin s.startHour s.startMin).map fun t =>
    { time := t, available := true }

/-- The `existingApts` query of `generateTimeSlots`: appointments of the doctor
on the date with `status` in `("pending", "confirmed")`. -/
def activeAptsFor (store : List Appointment) (doctorId : Nat) (dateStr : String) :
    List Appointment :=
  store.filter fun a =>
    a.doctor_id == doctorId && a.appointment_date == dateStr &&
      (a.status == .pending || a.status == .confirmed)

/-- `bookedTimes`: the set of `existingApts` times truncated with
`appointment_time.slice(0, 5)` (so `"HH:MM:SS"` becomes `"HH:MM"`). -/
def bookedTimes (existingApts : List Appointment) : List String :=
  existingApts.map fun a => a.appointment_time.take 5

/-- `generateTimeSlots`, given the already-fetched active sessions of the
doctor and the already-fetched `existingApts` for the date. The first session
whose `day_of_week` equals the date's weekday is selected with
`sessions.find(...)`; if none matches the result is the empty list. Slots are
generated, each slot is marked unavailable when its time is in `bookedTimes`,
and if `session.max_patients` is truthy and `existingApts.length` has reached
it, every slot is remapped to `available: false`. -/
def generateTimeSlots (sessions : List DoctorSession) (existingApts : List Appointment)
    (dayOfWeek : Nat) : List TimeSlot :=
  match sessions.find? (fun s => s.day_of_week == dayOfWeek) with
  | none => []
  | some session =>
    let slots := sessionSlots session
    let booked := bookedTimes existingApts
    let slotsWithAvailability :=
      slots.map fun slot => { slot with available := !(booked.contains slot.time) }
    match session.max_patients with
    | some maxPatients =>
      if maxPatients ≠ 0 then
        if existingApts.length ≥ maxPatients then
          slotsWithAvailability.map fun s => { s with available := false }
        else
          slotsWithAvailability
      else
        slotsWithAvailability
    | none => slotsWithAvailability

/-- The whole availability computation for a `(doctorId, date)` pair: the
`existingApts` query composed with `generateTimeSlots`. -/
def generateTimeSlotsFor (store : List Appointment) (sessions : List DoctorSession)
    (doctorId : Nat) (dateStr : String) (dayOfWeek : Nat) : List TimeSlot :=
  generateTimeSlots sessions (activeAptsFor store doctorId dateStr) dayOfWeek

/-- `handleBook`: a plain `insert` into `appointments` with `status: "pending"`.
The source performs no availability or uniqueness check at insert time, and the
schema declares no unique constraint on `(doctor_id, appointment_date,
appointment_time)`, so the insert always succeeds and simply appends a row
(`newId` models the generated primary key). -/
def handleBook (store : List Appointment) (newId patientId doctorId : Nat)
    (sessionId : Option Nat) (dateStr time : String) (reason : Option String) :
    List Appointment :=
  store ++ [{ id := newId, patient_id := patientId, doctor_id := doctorId,
              session_id := sessionId, appointment_date := dateStr,
              appointment_time := time, status := .pending, reason := reason }]

/-- `handleUpdateStatus`: `update({ status: newStatus }).eq("id", appointmentId)`.
Every row whose `id` matches gets the requested status; no transition check
exists in the client or in the schema. -/
def handleUpdateStatus (store : List Appointment) (appointmentId : Nat)
    (newStatus : AppointmentStatus) : List Appointment :=
  store.map fun a => if a.id == appointmentId then { a with status := newStatus } else a

/-- Number of appointments in the store for the `(doctorId, date, time)` triple
whose status is `pending` or `confirmed` (the "active" appointments occupying
the slot). -/
def activeCountAt (store : List Appointment) (doctorId : Nat) (dateStr time : String) : Nat :=
  (store.filter fun a =>
    a.doctor_id == doctorId && a.appointment_date == dateStr &&
      a.appointment_time == time &&
      (a.status == .pending || a.status == .confirmed)).length

/-- Modelled from the spec: the appointment status state machine of the design
document, for comparison with the code. Edges: pending to confirmed, pending to
cancelled, confirmed to completed, confirmed to cancelled. -/
def isValidTransition : AppointmentStatus → AppointmentStatus → Bool
  | .pending, .confirmed => true
  | .pending, .cancelled => true
  | .confirmed, .completed => true
  | .confirmed, .cancelled => true
  | _, _ => false

/-- From the migration DDL: `max_patients INTEGER DEFAULT 10` — the value a
`doctor_sessions` row receives when inserted without specifying the column. -/
def maxPatientsColumnDefault : Option Nat := some 10

/-- A `doctor_sessions` row created without specifying `max_patients`: the
column takes the schema default. -/
def mkSessionDefaultCapacity (id doctor_id day_of_week sh sm eh em : Nat) : DoctorSession :=
  { id := id, doctor_id := doctor_id, day_of_week := day_of_week,
    startHour := sh, startMin := sm, endHour := eh, endMin := em,
    max_patients := maxPatientsColumnDefault }

/-- Fixture: a Monday session 09:00 - 12:00 with capacity 10. -/
def sessionMon9to12 : DoctorSession :=
  { id := 1, doctor_id := 5, day_of_week := 1, startHour := 9, startMin := 0,
    endHour := 12, endMin := 0, max_patients := some 10 }

/-- Fixture: a Monday session 09:00 - 10:00 with no capacity limit. -/
def sessionMon9to10 : DoctorSession :=
  { id := 2, doctor_id := 5, day_of_week := 1, startHour := 9, startMin := 0,
    endHour := 10, endMin := 0, max_patients := none }

/-- Fixture: a second Monday session 14:00 - 15:00 with no capacity limit. -/
def sessionMon14to15 : DoctorSession :=
  { id := 3, doctor_id := 5, day_of_week := 1, startHour := 14, startMin := 0,
    endHour := 15, endMin := 0, max_patients := none }

/-- Fixture: a Monday session 09:00 - 12:00 with `max_patients` NULL. -/
def sessionMonNoCap : DoctorSession :=
  { id := 4, doctor_id := 5, day_of_week := 1, startHour := 9, startMin := 0,
    endHour := 12, endMin := 0, max_patients := none }

/-- Fixture: a pending appointment at 10:00 for doctor 5 on 2026-01-12. -/
def aptPending10 : Appointment :=
  { id := 1, patient_id := 100, doctor_id := 5, session_id := some 1,
    appointment_date := "2026-01-12", appointment_time := "10:00:00",
    status := .pending, reason := none }

/-- Fixture: a cancelled appointment at 11:00 for doctor 5 on 2026-01-12. -/
def aptCancelled11 : Appointment :=
  { id := 2, patient_id := 101, doctor_id := 5, session_id := some 1,
    appointment_date := "2026-01-12", appointment_time := "11:00:00",
    status := .cancelled, reason := none }

/-- Fixture: a completed appointment. -/
def aptCompleted : Appointment :=
  { id := 3, patient_id := 102, doctor_id := 5, session_id := some 1,
    appointment_date := "2026-01-05", appointment_time := "09:00:00",
    status := .completed, reason := none }

/-- Fixture: a Monday session 09:00 - 12:00 with capacity 2. -/
def sessionMonCap2 : DoctorSession :=
  { id := 6, doctor_id := 5, day_of_week := 1, startHour := 9, startMin := 0,
    endHour := 12, endMin := 0, max_patients := some 2 }

/-- Fixture: a confirmed appointment at 10:30 for doctor 5 on 2026-01-12. -/
def aptConfirmed1030 : Appointment :=
  { id := 7, patient_id := 107, doctor_id := 5, session_id := some 6,
    appointment_date := "2026-01-12", appointment_time := "10:30:00",
    status := .confirmed, reason := none }

/-- Fixture: a store with two active appointments for doctor 5 on 2026-01-12. -/
def twoBookedStore : List Appointment := [aptPending10, aptConfirmed1030]

/-- Fixture: ten pending appointments for doctor 5 on 2026-01-12. -/
def tenBookedStore : List Appointment :=
  (List.range 10).map fun i =>
    { id := i, patient_id := 100 + i, doctor_id := 5, session_id := some 1,
      appointment_date := "2026-01-12", appointment_time := "10:00:00",
      status := .pending, reason := none }

/-- Label of the minute count `t` past midnight, as the loop renders it. -/
def timeLabel (t : Nat) : String := timeStr (t / 60) (t % 60)

theorem slotTimesFrom_stop (eh em h m : Nat) (h1 : m < 60) (h2 : 60 * eh + em ≤ 60 * h + m) :
    slotTimesFrom eh em h m = [] := by
  rw [slotTimesFrom]
  rw [dif_neg]
  omega

theorem slotTimesFrom_grid (eh em : Nat) (hem : em ≤ 60) :
    ∀ n h m, m = 0 ∨ m = 30 → ((60 * eh + em) - (60 * h + m) + 29) / 30 = n →
      slotTimesFrom eh em h m = (List.range n).map fun k => timeLabel (60 * h + m + 30 * k) := by
  intro n
  induction n with
  | zero =>
    intro h m hm hn
    have h2 : 60 * eh + em ≤ 60 * h + m := by omega
    simp [slotTimesFrom_stop eh em h m (by omega) h2]
  | succ n ih =>
    intro h m hm hn
    have hcond : h < eh ∨ (h = eh ∧ m < em) := by omega
    rw [slotTimesFrom, dif_pos hcond, List.range_succ_eq_map, List.map_cons, List.map_map]
    rcases hm with hm | hm <;> subst hm
    · rw [if_neg (by omega), ih h 30 (Or.inr rfl) (by omega)]
      congr 1
      · rw [timeLabel]
        congr 1 <;> omega
      · refine List.map_congr_left fun k hk => ?_
        simp only [Function.comp_apply, timeLabel]
        congr 1 <;> omega
    · rw [if_pos (by omega), ih (h + 1) 0 (Or.inl rfl) (by omega)]
      congr 1
      · rw [timeLabel]
        congr 1 <;> omega
      · refine List.map_congr_left fun k hk => ?_
        simp only [Function.comp_apply, timeLabel]
        congr 1 <;> omega

/-- C3, amended: the loop emits a slot at `startTime + k * 30min` exactly for
those `k` with `slotStart < endTime` — the loop guard compares the slot START
against `endTime`, not `slotStart + 30min` — so the number of slots is the
ceiling of `(endTime - startTime) / 30`, and when `endTime - startTime` is not
an exact multiple of 30 minutes the final partial period DOES yield a slot
whose 30-minute span crosses `endTime`. Stated for grid-aligned start minutes
(`startMin` 0 or 30) and a valid end minute. -/
theorem C3_theorem (sh sm eh em : Nat) (hsm : sm = 0 ∨ sm = 30) (hem : em ≤ 60) :
    slotTimesFrom eh em sh sm =
      (List.range (((60 * eh + em) - (60 * sh + sm) + 29) / 30)).map
        fun k => timeLabel (60 * sh + sm + 30 * k) :=
  slotTimesFrom_grid eh em hem _ sh sm hsm rfl

/-- Witness for C3 at a session 09:00 - 09:45. -/
theorem C3_witness :
    slotTimesFrom 9 45 9 0 =
      (List.range (((60 * 9 + 45) - (60 * 9 + 0) + 29) / 30)).map
        fun k => timeLabel (60 * 9 + 0 + 30 * k) :=
  C3_theorem 9 0 9 45 (Or.inl rfl) (by omega)

/-- Counterexample to C3 as stated: for a session 09:00 - 09:45 the code emits
the slot 09:30 although `09:30 + 30min = 10:00 > 09:45`, so a slot whose
30-minute span crosses `endTime` IS emitted. -/
theorem C3_counterexample :
    timeLabel (60 * 9 + 30) ∈ slotTimesFrom 9 45 9 0 ∧
    ¬ (60 * 9 + 30) + 30 ≤ 60 * 9 + 45 := by
  have he : slotTimesFrom 9 45 9 0 = ["09:00", "09:30"] := by
    simp [slotTimesFrom]
    decide
  refine ⟨?_, by omega⟩
  rw [he]
  decide

/-- C6, amended: when more than one active session matches the weekday, the
availability computation uses only the FIRST matching session in list order
(the source selects with `sessions.find(...)`); it does not union slots of the
later matching sessions. -/
theorem C6_theorem (s1 : DoctorSession) (rest : List DoctorSession)
    (existingApts : List Appointment) (dayOfWeek : Nat) (h1 : s1.day_of_week = dayOfWeek) :
    generateTimeSlots (s1 :: rest) existingApts dayOfWeek =
      generateTimeSlots [s1] existingApts dayOfWeek := by
  have hf1 : List.find? (fun s => s.day_of_week == dayOfWeek) (s1 :: rest) = some s1 :=
    List.find?_cons_of_pos _ (by simpa using h1)
  have hf2 : List.find? (fun s => s.day_of_week == dayOfWeek) [s1] = some s1 :=
    List.find?_cons_of_pos _ (by simpa using h1)
  simp only [generateTimeSlots, hf1, hf2]

/-- Witness for C6: two Monday sessions, the second is ignored. -/
theorem C6_witness :
    generateTimeSlots [sessionMon9to10, sessionMon14to15] [] 1 =
      generateTimeSlots [sessionMon9to10] [] 1 :=
  C6_theorem sessionMon9to10 [sessionMon14to15] [] 1 rfl

/-- Counterexample to C6 as stated: with two Monday sessions 09:00 - 10:00 and
14:00 - 15:00 and no appointments, the result holds only the first session's
slots; 14:00 is generated by the second matching session yet missing from the
result, so the result is not the union. -/
theorem C6_counterexample :
    sessionMon14to15.day_of_week = 1 ∧
    timeLabel (14 * 60) ∈ slotTimesFrom sessionMon14to15.endHour sessionMon14to15.endMin
        sessionMon14to15.startHour sessionMon14to15.startMin ∧
    (generateTimeSlots [sessionMon9to10, sessionMon14to15] [] 1).map TimeSlot.time =
      ["09:00", "09:30"] := by
  have he1 : slotTimesFrom 10 0 9 0 = ["09:00", "09:30"] := by
    simp [slotTimesFrom]
    decide
  have he2 : slotTimesFrom 15 0 14 0 = ["14:00", "14:30"] := by
    simp [slotTimesFrom]
    decide
  refine ⟨rfl, ?_, ?_⟩
  · show timeLabel (14 * 60) ∈ slotTimesFrom 15 0 14 0
    rw [he2]
    decide
  · have hp : (fun s : DoctorSession => s.day_of_week == 1) sessionMon9to10 = true := by
      decide
    simp only [generateTimeSlots, List.find?_cons_of_pos _ hp]
    simp [sessionSlots, sessionMon9to10, bookedTimes, he1]

/-- C8: for a session 09:00 - 12:00 the generator yields exactly the six slots
09:00, 09:30, 10:00, 10:30, 11:00, 11:30 in that order, and no slot at 12:00. -/
theorem C8_theorem :
    (sessionSlots sessionMon9to12).map TimeSlot.time =
      ["09:00", "09:30", "10:00", "10:30", "11:00", "11:30"] ∧
    "12:00" ∉ (sessionSlots sessionMon9to12).map TimeSlot.time := by
  have he : slotTimesFrom 12 0 9 0 = ["09:00", "09:30", "10:00", "10:30", "11:00", "11:30"] := by
    simp [slotTimesFrom]
    decide
  have hs : (sessionSlots sessionMon9to12).map TimeSlot.time =
      ["09:00", "09:30", "10:00", "10:30", "11:00", "11:30"] := by
    simp [sessionSlots, sessionMon9to12, he]
  exact ⟨hs, by rw [hs]; decide⟩

/-- C9: a date whose weekday matches no session of the doctor yields the empty
slot list (not an error); no session contributes slots to a non-matching day. -/
theorem C9_theorem (store : List Appointment) (sessions : List DoctorSession)
    (doctorId : Nat) (dateStr : String) (dayOfWeek : Nat)
    (h : ∀ s ∈ sessions, s.day_of_week ≠ dayOfWeek) :
    generateTimeSlotsFor store sessions doctorId dateStr dayOfWeek = [] := by
  have hf : sessions.find? (fun s => s.day_of_week == dayOfWeek) = none :=
    List.find?_eq_none.mpr fun s hs => by simpa using h s hs
  simp [generateTimeSlotsFor, generateTimeSlots, hf]

/-- Witness for C9: a Monday-only doctor on a Tuesday has no slots. -/
theorem C9_witness :
    generateTimeSlotsFor [] [sessionMon9to12] 5 "2026-01-13" 2 = [] :=
  C9_theorem [] [sessionMon9to12] 5 "2026-01-13" 2 (by decide)

/-- C10, amended: the slot loop terminates for every start and end time
(embodied by `slotTimesFrom` being accepted as a total function); each
iteration strictly advances the current time, but by exactly 30 minutes only
when the current minute is below 30 — from minute `m` with `30 ≤ m < 60` the
step advances by `60 - m` minutes — and whenever `startTime ≥ endTime` the
loop guard fails at once and the generator returns the empty list. -/
theorem C10_theorem (sh sm eh em : Nat) (h1 : sm < 60) (h2 : 60 * eh + em ≤ 60 * sh + sm) :
    slotTimesFrom eh em sh sm = [] :=
  slotTimesFrom_stop eh em sh sm h1 h2

/-- Witness for C10: a malformed session 17:00 - 09:00 yields no slots. -/
theorem C10_witness : slotTimesFrom 9 0 17 0 = [] :=
  C10_theorem 17 0 9 0 (by omega) (by omega)

/-- Counterexample to C10's stated mechanism: starting at 09:45 (end 11:00) the
emitted times are 09:45, 10:00, 10:30 — the first iteration advances the
current time by 15 minutes, not 30. -/
theorem C10_counterexample :
    slotTimesFrom 11 0 9 45 =
      [timeLabel (9 * 60 + 45), timeLabel (9 * 60 + 45 + 15), timeLabel (9 * 60 + 45 + 45)] ∧
    (9 * 60 + 45 + 15) - (9 * 60 + 45) ≠ 30 := by
  have he : slotTimesFrom 11 0 9 45 = ["09:45", "10:00", "10:30"] := by
    simp [slotTimesFrom]
    decide
  refine ⟨?_, by omega⟩
  rw [he]
  decide

/-- When the max-patients gate does not fire (no `max_patients`, a zero value,
or a count below the limit), `generateTimeSlots` returns the per-slot
availability marking of the governing session. -/
theorem generateTimeSlots_no_gate (sessions : List DoctorSession)
    (existingApts : List Appointment) (dayOfWeek : Nat) (session : DoctorSession)
    (hfind : sessions.find? (fun s => s.day_of_week == dayOfWeek) = some session)
    (hgate : ∀ mp, session.max_patients = some mp → mp = 0 ∨ existingApts.length < mp) :
    generateTimeSlots sessions existingApts dayOfWeek =
      (sessionSlots session).map fun slot =>
        { slot with available := !((bookedTimes existingApts).contains slot.time) } := by
  simp only [generateTimeSlots, hfind]
  cases hmp : session.max_patients with
  | none => rfl
  | some mp =>
    rcases hgate mp hmp with h0 | hlt
    · subst h0
      simp
    · have h1 : mp ≠ 0 := by omega
      have h2 : ¬ existingApts.length ≥ mp := by omega
      simp [h1, h2]

/-- A time is in `bookedTimes existingApts` exactly when some appointment in
the list has that time (after the `slice(0, 5)` truncation). -/
theorem mem_bookedTimes (existingApts : List Appointment) (t : String) :
    (bookedTimes existingApts).contains t = true ↔
      ∃ a ∈ existingApts, a.appointment_time.take 5 = t := by
  constructor
  · intro hc
    have hm : t ∈ bookedTimes existingApts := by
      have := List.elem_iff.mp hc
      simpa using this
    obtain ⟨a, ha, hat⟩ := List.mem_map.mp hm
    exact ⟨a, ha, hat⟩
  · intro ⟨a, ha, hat⟩
    have hm : t ∈ bookedTimes existingApts := List.mem_map.mpr ⟨a, ha, hat⟩
    exact List.elem_iff.mpr hm

/-- Membership in the `existingApts` query result, unfolded to the raw store. -/
theorem mem_activeAptsFor (store : List Appointment) (doctorId : Nat) (dateStr : String)
    (a : Appointment) :
    a ∈ activeAptsFor store doctorId dateStr ↔
      a ∈ store ∧ a.doctor_id = doctorId ∧ a.appointment_date = dateStr ∧
        (a.status = .pending ∨ a.status = .confirmed) := by
  simp [activeAptsFor, List.mem_filter, and_assoc]

/-- When the max-patients gate fires, every slot of the result is the per-slot
marking remapped to unavailable. -/
theorem generateTimeSlots_gate (sessions : List DoctorSession)
    (existingApts : List Appointment) (dayOfWeek : Nat) (session : DoctorSession) (mp : Nat)
    (hfind : sessions.find? (fun s => s.day_of_week == dayOfWeek) = some session)
    (hmp : session.max_patients = some mp) (hpos : mp ≠ 0)
    (hfull : existingApts.length ≥ mp) :
    generateTimeSlots sessions existingApts dayOfWeek =
      ((sessionSlots session).map fun slot =>
        { slot with available := !((bookedTimes existingApts).contains slot.time) }).map
        fun s => { s with available := false } := by
  simp only [generateTimeSlots, hfind, hmp]
  simp [hpos, hfull]

/-- C1, amended: `handleBook` performs a plain unconditional insert — it never
fails — so booking a `(doctorId, date, time)` triple always increments the
count of active appointments for that triple by one; in particular a second
booking attempt for an already-booked triple also succeeds and yields a second
active appointment. Uniqueness is checked only client-side (slot availability
at read time); neither the insert nor the schema enforces the invariant. -/
theorem C1_theorem (store : List Appointment) (newId patientId doctorId : Nat)
    (sessionId : Option Nat) (dateStr time : String) (reason : Option String) :
    activeCountAt (handleBook store newId patientId doctorId sessionId dateStr time reason)
        doctorId dateStr time = activeCountAt store doctorId dateStr time + 1 := by
  simp [handleBook, activeCountAt, List.filter_append]

/-- Counterexample to C1 as stated: two successive bookings of the same
`(doctorId, date, time)` triple both succeed; afterwards two appointments with
status `pending` exist for the triple, violating the at-most-one invariant. -/
theorem C1_counterexample :
    activeCountAt (handleBook [] 1 100 5 (some 1) "2026-01-12" "09:00" none)
        5 "2026-01-12" "09:00" = 1 ∧
    activeCountAt (handleBook (handleBook [] 1 100 5 (some 1) "2026-01-12" "09:00" none)
        2 101 5 (some 1) "2026-01-12" "09:00" none) 5 "2026-01-12" "09:00" = 2 := by
  decide

/-- C2, amended: `handleUpdateStatus` updates unconditionally — for EVERY
current status `s` and requested status `t` the operation succeeds and the
stored status becomes `t`; no pair fails with an `InvalidTransition` error.
The state machine is imposed only by which action buttons the doctor screen
renders (Confirm/Cancel on `pending`, Complete on `confirmed`). -/
theorem C2_theorem (store : List Appointment) (appointmentId : Nat)
    (newStatus : AppointmentStatus) (a : Appointment) (ha : a ∈ store)
    (hid : a.id = appointmentId) :
    { a with status := newStatus } ∈ handleUpdateStatus store appointmentId newStatus := by
  rw [handleUpdateStatus]
  refine List.mem_map.mpr ⟨a, ha, ?_⟩
  simp [hid]

/-- Witness for C2: a completed appointment is moved back to pending. -/
theorem C2_witness :
    { aptCompleted with status := AppointmentStatus.pending } ∈
      handleUpdateStatus [aptCompleted] 3 AppointmentStatus.pending :=
  C2_theorem [aptCompleted] 3 AppointmentStatus.pending aptCompleted (by decide) rfl

/-- Counterexample to C2 as stated: `(completed, pending)` is not an edge of
the state machine, yet `handleUpdateStatus` succeeds and changes the stored
status. -/
theorem C2_counterexample :
    isValidTransition AppointmentStatus.completed AppointmentStatus.pending = false ∧
    handleUpdateStatus [aptCompleted] 3 AppointmentStatus.pending =
      [{ aptCompleted with status := AppointmentStatus.pending }] ∧
    ({ aptCompleted with status := AppointmentStatus.pending }).status ≠ aptCompleted.status := by
  decide

/-- C4: when the governing session declares a positive `maxPatients` and the
count of active (pending or confirmed) appointments of the doctor on the date
has reached it, every returned slot is unavailable — including slots whose
time matches no appointment. -/
theorem C4_theorem (store : List Appointment) (sessions : List DoctorSession)
    (doctorId : Nat) (dateStr : String) (dayOfWeek : Nat) (session : DoctorSession) (mp : Nat)
    (hfind : sessions.find? (fun s => s.day_of_week == dayOfWeek) = some session)
    (hmp : session.max_patients = some mp) (hpos : 0 < mp)
    (hfull : mp ≤ (activeAptsFor store doctorId dateStr).length) :
    ∀ slot ∈ generateTimeSlotsFor store sessions doctorId dateStr dayOfWeek,
      slot.available = false := by
  intro slot hslot
  rw [generateTimeSlotsFor,
    generateTimeSlots_gate sessions _ dayOfWeek session mp hfind hmp (by omega) hfull] at hslot
  obtain ⟨s1, hs1, rfl⟩ := List.mem_map.mp hslot
  rfl

/-- Witness for C4: capacity 2, two active appointments, all six slots
unavailable (only 10:00 and 10:30 match an appointment). -/
theorem C4_witness :
    (generateTimeSlotsFor twoBookedStore [sessionMonCap2] 5 "2026-01-12" 1).all
      (fun s => s.available == false) = true := by
  rw [List.all_eq_true]
  intro slot hslot
  have h := C4_theorem twoBookedStore [sessionMonCap2] 5 "2026-01-12" 1 sessionMonCap2 2
    (by decide) rfl (by decide) (by decide) slot hslot
  simp [h]

/-- C5: when the capacity gate has not been reached, a returned slot is
unavailable exactly when its time equals the (truncated) time of some
appointment of the doctor on the date with status pending or confirmed;
cancelled and completed appointments never make a slot unavailable. -/
theorem C5_theorem (store : List Appointment) (sessions : List DoctorSession)
    (doctorId : Nat) (dateStr : String) (dayOfWeek : Nat) (session : DoctorSession)
    (hfind : sessions.find? (fun s => s.day_of_week == dayOfWeek) = some session)
    (hgate : ∀ mp, session.max_patients = some mp →
      mp = 0 ∨ (activeAptsFor store doctorId dateStr).length < mp) :
    ∀ slot ∈ generateTimeSlotsFor store sessions doctorId dateStr dayOfWeek,
      (slot.available = false ↔ ∃ a ∈ store,
        a.doctor_id = doctorId ∧ a.appointment_date = dateStr ∧
          (a.status = AppointmentStatus.pending ∨ a.status = AppointmentStatus.confirmed) ∧
          a.appointment_time.take 5 = slot.time) := by
  intro slot hslot
  rw [generateTimeSlotsFor,
    generateTimeSlots_no_gate sessions _ dayOfWeek session hfind hgate] at hslot
  obtain ⟨s1, hs1, rfl⟩ := List.mem_map.mp hslot
  show (!(bookedTimes _).contains s1.time) = false ↔ _
  rw [Bool.not_eq_false', mem_bookedTimes]
  constructor
  · rintro ⟨a, ha, hat⟩
    obtain ⟨h1, h2, h3, h4⟩ := (mem_activeAptsFor store doctorId dateStr a).mp ha
    exact ⟨a, h1, h2, h3, h4, hat⟩
  · rintro ⟨a, ha, h1, h2, h3, h4⟩
    exact ⟨a, (mem_activeAptsFor store doctorId dateStr a).mpr ⟨ha, h1, h2, h3⟩, h4⟩

/-- Witness for C5: one pending appointment at 10:00 and one cancelled at
11:00; availability is governed exactly by the pending/confirmed matches. -/
theorem C5_witness :
    (generateTimeSlotsFor [aptPending10, aptCancelled11] [sessionMonNoCap]
        5 "2026-01-12" 1).all
      (fun slot => decide (slot.available = false ↔ ∃ a ∈ [aptPending10, aptCancelled11],
        a.doctor_id = 5 ∧ a.appointment_date = "2026-01-12" ∧
          (a.status = AppointmentStatus.pending ∨ a.status = AppointmentStatus.confirmed) ∧
          a.appointment_time.take 5 = slot.time)) = true := by
  rw [List.all_eq_true]
  intro slot hslot
  exact decide_eq_true (C5_theorem [aptPending10, aptCancelled11] [sessionMonNoCap]
    5 "2026-01-12" 1 sessionMonNoCap (by decide)
    (fun mp h => by simp [sessionMonNoCap] at h) slot hslot)

/-- C7, amended: a session whose `maxPatients` is NULL is unlimited in the
availability computation — for every store, a slot can only be unavailable
because an active appointment matches its time, never on account of capacity.
However a session row created WITHOUT specifying `max_patients` does not get
NULL: the schema assigns the finite default 10. -/
theorem C7_theorem (store : List Appointment) (sessions : List DoctorSession)
    (doctorId : Nat) (dateStr : String) (dayOfWeek : Nat) (session : DoctorSession)
    (hfind : sessions.find? (fun s => s.day_of_week == dayOfWeek) = some session)
    (hmp : session.max_patients = none) :
    ∀ slot ∈ generateTimeSlotsFor store sessions doctorId dateStr dayOfWeek,
      slot.available = false →
        ∃ a ∈ activeAptsFor store doctorId dateStr,
          a.appointment_time.take 5 = slot.time := by
  intro slot hslot hav
  rw [generateTimeSlotsFor, generateTimeSlots_no_gate sessions _ dayOfWeek session hfind
    (fun mp h => by rw [hmp] at h; cases h)] at hslot
  obtain ⟨s1, hs1, rfl⟩ := List.mem_map.mp hslot
  have hc : (bookedTimes (activeAptsFor store doctorId dateStr)).contains s1.time = true := by
    simpa using hav
  exact (mem_bookedTimes _ _).mp hc

/-- Witness for C7: NULL capacity with one pending appointment. -/
theorem C7_witness :
    (generateTimeSlotsFor [aptPending10] [sessionMonNoCap] 5 "2026-01-12" 1).all
      (fun slot => decide (slot.available = false →
        ∃ a ∈ activeAptsFor [aptPending10] 5 "2026-01-12",
          a.appointment_time.take 5 = slot.time)) = true := by
  rw [List.all_eq_true]
  intro slot hslot
  exact decide_eq_true (C7_theorem [aptPending10] [sessionMonNoCap] 5 "2026-01-12" 1
    sessionMonNoCap (by decide) rfl slot hslot)

/-- Counterexample to C7 as stated: a session created without specifying
`max_patients` receives the schema default `some 10`, not NULL, and with ten
active appointments the capacity gate marks every slot unavailable — it does
not behave as unlimited. -/
theorem C7_counterexample :
    (mkSessionDefaultCapacity 1 5 1 9 0 12 0).max_patients ≠ none ∧
    tenBookedStore.length = 10 ∧
    (generateTimeSlotsFor tenBookedStore [mkSessionDefaultCapacity 1 5 1 9 0 12 0]
        5 "2026-01-12" 1).all (fun s => s.available == false) = true := by
  refine ⟨by decide, by decide, ?_⟩
  rw [List.all_eq_true]
  intro slot hslot
  rw [generateTimeSlotsFor, generateTimeSlots_gate _ _ _ (mkSessionDefaultCapacity 1 5 1 9 0 12 0)
    10 (by decide) rfl (by decide) (by decide)] at hslot
  obtain ⟨s1, hs1, rfl⟩ := List.mem_map.mp hslot
  rfl

end CareConnect
